import Mathlib

/-!
Verification of the poster-template rendering engine of the `graphics`
repository against its natural-language specification.

The development shallowly embeds the Python source:

* `src/app/templates/template4.py` : `get_wrapped_text` (greedy word wrap);
* `src/app/template_selector.py`   : the template registry and `pick_template`;
* `src/app/templates/template{1,2,3,4}.py` : the four render pipelines,
  embedded as symbolic image-compositing expressions over an explicit
  filesystem (`World`) and a deterministic host-metrics environment
  (`Metrics`, abstracting Pillow font measurements and float-valued pixel
  formulas).

File paths are written relative to the repository's `PROJECT_ROOT`.
-/

namespace Graphics

/-! ### Word splitting (Python `str.split()` with no arguments)

`str.split()` splits on runs of whitespace and drops empty pieces.  We model
it character by character with an explicit accumulator of the word being
read (kept reversed, flushed at whitespace or end of input). -/

/-- Accumulator-style splitter: `cur` is the (reversed) word currently being
read; whitespace flushes it.  Models Python `str.split()` on a char list. -/
def wordsAux : List Char → List Char → List (List Char)
  | cur, [] => if cur = [] then [] else [cur.reverse]
  | cur, c :: cs =>
    if c.isWhitespace then
      if cur = [] then wordsAux [] cs else cur.reverse :: wordsAux [] cs
    else
      wordsAux (c :: cur) cs

/-- Python `text.split()` (no separator): whitespace-run splitting, empty
pieces dropped. -/
def splitWhitespace (s : String) : List String :=
  (wordsAux [] s.data).map String.mk

/-- Join char-list chunks with a single separator character; the char-level
core of Python `sep.join(...)` for one-character separators. -/
def joinSep (sep : Char) : List (List Char) → List Char
  | [] => []
  | [w] => w
  | w :: x :: ws => w ++ sep :: joinSep sep (x :: ws)

/-- Python `" ".join(words)`. -/
def joinWords (ws : List String) : String :=
  String.mk (joinSep ' ' (ws.map String.data))

/-- Python `"\n".join(lines)`. -/
def joinLines (ls : List String) : String :=
  String.mk (joinSep '\n' (ls.map String.data))

/-! ### `get_wrapped_text` (template4.py, lines 26-47)

The font metric is a function `font : String → Nat` giving the rendered
pixel width of a string; it models `font.getlength(test)` (and the
`font.getbbox` fallback used for fonts without `getlength`, which computes
the same rendered width). -/

/-- One iteration of the greedy loop of `get_wrapped_text`: try to extend the
current line with the next word; on overflow, flush the current line and
start a new one holding just that word. -/
def wrapStep (font : String → Nat) (max_pixel_width : Nat)
    (acc : List (List String) × List String) (word : String) :
    List (List String) × List String :=
  let lines := acc.1
  let current := acc.2
  let test := joinWords (current ++ [word])
  if font test ≤ max_pixel_width then
    (lines, current ++ [word])
  else
    (lines ++ [current], [word])

/-- The wrapped output of `get_wrapped_text` as a list of lines, each a list
of words (before the final `"\n".join`). -/
def wrapLines (text : String) (font : String → Nat) (max_pixel_width : Nat) :
    List (List String) :=
  let r := (splitWhitespace text).foldl (wrapStep font max_pixel_width) ([], [])
  if r.2 = [] then r.1 else r.1 ++ [r.2]

/-- `get_wrapped_text(text, font, max_pixel_width)` from template4.py. -/
def get_wrapped_text (text : String) (font : String → Nat)
    (max_pixel_width : Nat) : String :=
  joinLines ((wrapLines text font max_pixel_width).map joinWords)

/-! ### Properties of the greedy wrap loop -/

/-- A line satisfies the wrap contract: its rendered width fits, or it is a
single word that is itself wider than the limit. -/
def GoodLine (font : String → Nat) (max_pixel_width : Nat)
    (L : List String) : Prop :=
  font (joinWords L) ≤ max_pixel_width ∨
    ∃ w, L = [w] ∧ max_pixel_width < font w

theorem joinWords_nil : joinWords [] = "" := rfl

theorem joinWords_singleton (w : String) : joinWords [w] = w := by
  cases w; rfl

/-- Shape of the fold: completed lines only grow by appending; the flattened
output together with the pending line is exactly the input word sequence;
and the pending line is empty only if nothing was processed. -/
theorem wrap_fold_shape (font : String → Nat) (maxW : Nat) :
    ∀ (ws : List String) (lines : List (List String)) (current : List String),
      ((ws.foldl (wrapStep font maxW) (lines, current)).1.flatten ++
          (ws.foldl (wrapStep font maxW) (lines, current)).2 =
        lines.flatten ++ (current ++ ws)) ∧
      (∃ d, (ws.foldl (wrapStep font maxW) (lines, current)).1 = lines ++ d) ∧
      ((ws.foldl (wrapStep font maxW) (lines, current)).2 = [] →
        ws = [] ∧ current = []) := by
  intro ws
  induction ws with
  | nil =>
    intro lines current
    refine ⟨by simp, ⟨[], by simp⟩, ?_⟩
    intro h
    exact ⟨rfl, h⟩
  | cons w rest ih =>
    intro lines current
    rw [List.foldl_cons]
    by_cases hfit : font (joinWords (current ++ [w])) ≤ maxW
    · have hstep : wrapStep font maxW (lines, current) w =
          (lines, current ++ [w]) := by
        simp [wrapStep, hfit]
      rw [hstep]
      obtain ⟨h1, ⟨d, h2⟩, h3⟩ := ih lines (current ++ [w])
      refine ⟨by simpa using h1, ⟨d, h2⟩, ?_⟩
      intro h
      exact absurd (h3 h).2 (by simp)
    · have hstep : wrapStep font maxW (lines, current) w =
          (lines ++ [current], [w]) := by
        simp [wrapStep, hfit]
      rw [hstep]
      obtain ⟨h1, ⟨d, h2⟩, h3⟩ := ih (lines ++ [current]) [w]
      refine ⟨by simpa using h1, ⟨[current] ++ d, by simpa using h2⟩, ?_⟩
      intro h
      exact absurd (h3 h).2 (by simp)

/-- Goodness of the fold: every completed line fits or is a lone oversized
word, every word placed comes from the input, and likewise for the pending
line. -/
theorem wrap_fold_good (font : String → Nat) (maxW : Nat) (S : List String) :
    ∀ (ws : List String) (lines : List (List String)) (current : List String),
      (∀ L ∈ lines, GoodLine font maxW L ∧ ∀ w ∈ L, w ∈ S) →
      GoodLine font maxW current → (∀ w ∈ current, w ∈ S) →
      (∀ w ∈ ws, w ∈ S) →
      (∀ L ∈ (ws.foldl (wrapStep font maxW) (lines, current)).1,
          GoodLine font maxW L ∧ ∀ w ∈ L, w ∈ S) ∧
      GoodLine font maxW (ws.foldl (wrapStep font maxW) (lines, current)).2 ∧
      (∀ w ∈ (ws.foldl (wrapStep font maxW) (lines, current)).2, w ∈ S) := by
  intro ws
  induction ws with
  | nil =>
    intro lines current hlines hcur hsub _
    exact ⟨hlines, hcur, hsub⟩
  | cons w rest ih =>
    intro lines current hlines hcur hsub hws
    rw [List.foldl_cons]
    have hwS : w ∈ S := hws w (by simp)
    have hrest : ∀ w' ∈ rest, w' ∈ S := fun w' h => hws w' (by simp [h])
    by_cases hfit : font (joinWords (current ++ [w])) ≤ maxW
    · have hstep : wrapStep font maxW (lines, current) w =
          (lines, current ++ [w]) := by
        simp [wrapStep, hfit]
      rw [hstep]
      refine ih lines (current ++ [w]) hlines (Or.inl hfit) ?_ hrest
      intro w' hw'
      rcases List.mem_append.mp hw' with h | h
      · exact hsub w' h
      · simp at h; simpa [h] using hwS
    · have hstep : wrapStep font maxW (lines, current) w =
          (lines ++ [current], [w]) := by
        simp [wrapStep, hfit]
      rw [hstep]
      have hgw : GoodLine font maxW [w] := by
        by_cases hw : font w ≤ maxW
        · exact Or.inl (by simpa [joinWords_singleton] using hw)
        · exact Or.inr ⟨w, rfl, Nat.lt_of_not_le hw⟩
      refine ih (lines ++ [current]) [w] ?_ hgw ?_ hrest
      · intro L hL
        rcases List.mem_append.mp hL with h | h
        · exact hlines L h
        · simp at h
          exact h ▸ ⟨hcur, hsub⟩
      · intro w' hw'
        simp at hw'
        simpa [hw'] using hwS

/-- **C1.** For every input string, font metric, and maximum pixel width
(with the empty string measuring within the limit, as Pillow's
`getlength("") = 0` does), every line produced by `get_wrapped_text`'s
greedy loop either measures at most the maximum pixel width, or is a single
input word — wider than the maximum — placed alone on its own line
unmodified. -/
theorem wrapped_lines_fit (font : String → Nat) (maxW : Nat) (text : String)
    (h0 : font "" ≤ maxW) :
    ∀ L ∈ wrapLines text font maxW,
      font (joinWords L) ≤ maxW ∨
        ∃ w, L = [w] ∧ maxW < font w ∧ w ∈ splitWhitespace text := by
  intro L hL
  have hS : ∀ w ∈ splitWhitespace text, w ∈ splitWhitespace text :=
    fun _ h => h
  have hgood := wrap_fold_good font maxW (splitWhitespace text)
    (splitWhitespace text) [] []
    (by simp) (Or.inl (by simpa [joinWords_nil] using h0)) (by simp) hS
  unfold wrapLines at hL
  set r := (splitWhitespace text).foldl (wrapStep font maxW) ([], []) with hr
  have hfin : GoodLine font maxW L ∧ ∀ w ∈ L, w ∈ splitWhitespace text := by
    by_cases h2 : r.2 = []
    · simp only [h2, if_pos rfl] at hL
      exact hgood.1 L hL
    · simp only [if_neg h2] at hL
      rcases List.mem_append.mp hL with h | h
      · exact hgood.1 L h
      · simp at h
        exact h ▸ ⟨hgood.2.1, hgood.2.2⟩
  rcases hfin.1 with h | ⟨w, hw, hlt⟩
  · exact Or.inl h
  · exact Or.inr ⟨w, hw, hlt, hfin.2 w (by simp [hw])⟩

/-- Witness for `wrapped_lines_fit` at a concrete input. -/
theorem wrapped_lines_fit_witness :
    (String.length "" ≤ 5) ∧
      (∀ L ∈ wrapLines "aa bb wideword cc" String.length 5,
        String.length (joinWords L) ≤ 5 ∨
          ∃ w, L = [w] ∧ 5 < String.length w ∧
            w ∈ splitWhitespace "aa bb wideword cc") :=
  ⟨by decide, wrapped_lines_fit String.length 5 "aa bb wideword cc" (by decide)⟩

/-! ### Word preservation: splitting the wrapped output recovers the input -/

/-- Splitting distributes over a whitespace separator. -/
theorem wordsAux_append_sep {sep : Char} (hsep : sep.isWhitespace) :
    ∀ (xs cur ys : List Char),
      wordsAux cur (xs ++ sep :: ys) = wordsAux cur xs ++ wordsAux [] ys := by
  intro xs
  induction xs with
  | nil =>
    intro cur ys
    by_cases hc : cur = [] <;> simp [wordsAux, hsep, hc]
  | cons c xs ih =>
    intro cur ys
    by_cases hw : c.isWhitespace
    · by_cases hc : cur = [] <;> simp [wordsAux, hw, hc, ih]
    · simp [wordsAux, hw, ih]

/-- Splitting a whitespace-free chunk yields (at most) that chunk. -/
theorem wordsAux_no_ws (w : List Char) (hw : ∀ c ∈ w, ¬ c.isWhitespace) :
    ∀ cur, wordsAux cur w =
      if cur.reverse ++ w = [] then [] else [cur.reverse ++ w] := by
  induction w with
  | nil =>
    intro cur
    by_cases hc : cur = [] <;> simp [wordsAux, hc]
  | cons c w ih =>
    intro cur
    have hcw : ¬ c.isWhitespace := hw c (by simp)
    have hrest : ∀ c' ∈ w, ¬ c'.isWhitespace := fun c' h => hw c' (by simp [h])
    rw [wordsAux, if_neg hcw, ih hrest (c :: cur)]
    have hne : cur.reverse ++ c :: w ≠ [] := by simp
    simp [hne]

/-- Splitting a whitespace-joined list of chunks is the concatenation of the
splits of the chunks. -/
theorem wordsAux_joinSep {sep : Char} (hsep : sep.isWhitespace) :
    ∀ Ls : List (List Char),
      wordsAux [] (joinSep sep Ls) = (Ls.map (wordsAux [])).flatten := by
  intro Ls
  match Ls with
  | [] => simp [joinSep, wordsAux]
  | [L] => simp [joinSep]
  | L :: L' :: rest =>
    rw [joinSep, wordsAux_append_sep hsep, wordsAux_joinSep hsep (L' :: rest)]
    simp

/-- Every chunk produced by the splitter is nonempty and whitespace-free. -/
theorem wordsAux_mem_good :
    ∀ (rest cur : List Char), (∀ c ∈ cur, ¬ c.isWhitespace) →
      ∀ l ∈ wordsAux cur rest, l ≠ [] ∧ ∀ c ∈ l, ¬ c.isWhitespace := by
  intro rest
  induction rest with
  | nil =>
    intro cur hcur l hl
    by_cases hc : cur = []
    · simp [wordsAux, hc] at hl
    · simp [wordsAux, hc] at hl
      subst hl
      exact ⟨by simpa using hc, fun c hcl => hcur c (by simpa using hcl)⟩
  | cons c rest ih =>
    intro cur hcur l hl
    by_cases hw : c.isWhitespace
    · by_cases hc : cur = []
      · rw [wordsAux, if_pos hw, if_pos hc] at hl
        exact ih [] (by simp) l hl
      · rw [wordsAux, if_pos hw, if_neg hc] at hl
        rcases List.mem_cons.mp hl with h | h
        · subst h
          exact ⟨by simpa using hc, fun ch hch => hcur ch (by simpa using hch)⟩
        · exact ih [] (by simp) l h
    · rw [wordsAux, if_neg hw] at hl
      refine ih (c :: cur) ?_ l hl
      intro ch hch
      rcases List.mem_cons.mp hch with h | h
      · exact h ▸ hw
      · exact hcur ch h

/-- The words appearing in `wrapLines`, flattened in order, are exactly the
words of the input text. -/
theorem wrapLines_flatten (text : String) (font : String → Nat) (maxW : Nat) :
    (wrapLines text font maxW).flatten = splitWhitespace text := by
  obtain ⟨h1, -, h3⟩ :=
    wrap_fold_shape font maxW (splitWhitespace text) [] []
  unfold wrapLines
  set r := (splitWhitespace text).foldl (wrapStep font maxW) ([], []) with hr
  by_cases h2 : r.2 = []
  · rw [if_pos h2]
    simpa [h2] using h1
  · rw [if_neg h2]
    simpa using h1

/-- **C9.** Splitting `get_wrapped_text`'s output on whitespace yields
exactly the word sequence of the input: the wrap never drops, duplicates, or
reorders a word. -/
theorem wrapped_words_preserved (text : String) (font : String → Nat)
    (maxW : Nat) :
    splitWhitespace (get_wrapped_text text font maxW) = splitWhitespace text := by
  have hgoodCW : ∀ l ∈ wordsAux [] text.data, l ≠ [] ∧
      ∀ c ∈ l, ¬ c.isWhitespace :=
    wordsAux_mem_good text.data [] (by simp)
  -- words appearing in the wrapped lines have good underlying char lists
  have hgoodS : ∀ w ∈ splitWhitespace text, w.data ≠ [] ∧
      ∀ c ∈ w.data, ¬ c.isWhitespace := by
    intro w hw
    obtain ⟨l, hl, hlw⟩ := List.mem_map.mp hw
    have := hgoodCW l hl
    subst hlw
    exact this
  have hflat := wrapLines_flatten text font maxW
  have hsubS : ∀ w ∈ (wrapLines text font maxW).flatten,
      w ∈ splitWhitespace text := fun w hw => hflat ▸ hw
  -- compute the character data of the output
  have hdata : (get_wrapped_text text font maxW).data =
      joinSep '\n' ((wrapLines text font maxW).map
        (fun L => joinSep ' ' (L.map String.data))) := by
    show joinSep '\n'
        (((wrapLines text font maxW).map joinWords).map String.data) = _
    rw [List.map_map]
    exact congrArg (joinSep '\n') (List.map_congr_left (fun L _ => rfl))
  unfold splitWhitespace
  rw [hdata, wordsAux_joinSep (by decide), List.map_map]
  -- each line splits back into its own words
  have hline : ∀ L ∈ wrapLines text font maxW,
      wordsAux [] (joinSep ' ' (L.map String.data)) = L.map String.data := by
    intro L hL
    rw [wordsAux_joinSep (by decide)]
    have : ∀ l ∈ L.map String.data, wordsAux [] l = [l] := by
      intro l hl
      obtain ⟨w, hwL, hwl⟩ := List.mem_map.mp hl
      have hmem : w ∈ splitWhitespace text :=
        hsubS w (List.mem_flatten.mpr ⟨L, hL, hwL⟩)
      obtain ⟨hne, hnw⟩ := hgoodS w hmem
      subst hwl
      rw [wordsAux_no_ws w.data hnw []]
      simp [hne]
    calc ((L.map String.data).map (wordsAux [])).flatten
        = ((L.map String.data).map (fun l => [l])).flatten := by
          refine congrArg List.flatten (List.map_congr_left ?_)
          exact this
      _ = L.map String.data := by
          induction L.map String.data with
          | nil => rfl
          | cons x xs ih => simp [ih]
  have hmap2 : (wrapLines text font maxW).map
      (wordsAux [] ∘ fun L => joinSep ' ' (L.map String.data)) =
      (wrapLines text font maxW).map (fun L => L.map String.data) :=
    List.map_congr_left (fun L hL => hline L hL)
  rw [hmap2, ← List.map_flatten, hflat]
  unfold splitWhitespace
  rw [List.map_map]
  calc List.map (String.mk ∘ String.data)
        (List.map String.mk (wordsAux [] text.data))
      = List.map id (List.map String.mk (wordsAux [] text.data)) :=
        List.map_congr_left (fun s _ => by cases s; rfl)
    _ = List.map String.mk (wordsAux [] text.data) := List.map_id _

/-! ### The leading empty line when the first word is oversized -/

/-- **C10.** If the first word of the input is wider than the maximum pixel
width, the greedy loop flushes the (empty) current line before starting the
new one, so the wrapped output begins with an empty first line: the line
list starts with `[]` and the output string starts with a line break. -/
theorem wrapped_leading_empty_line (text : String) (font : String → Nat)
    (maxW : Nat) (w : String) (ws : List String)
    (hsplit : splitWhitespace text = w :: ws) (hwide : maxW < font w) :
    (wrapLines text font maxW).head? = some [] ∧
      (get_wrapped_text text font maxW).data.head? = some '\n' := by
  have hstep : wrapStep font maxW ([], []) w = ([[]], [w]) := by
    simp [wrapStep, joinWords_singleton, Nat.not_le_of_lt hwide]
  have hfold : (splitWhitespace text).foldl (wrapStep font maxW) ([], []) =
      ws.foldl (wrapStep font maxW) ([[]], [w]) := by
    rw [hsplit, List.foldl_cons, hstep]
  obtain ⟨-, ⟨d, hpre⟩, hne⟩ := wrap_fold_shape font maxW ws [[]] [w]
  have hcur : (ws.foldl (wrapStep font maxW) ([[]], [w])).2 ≠ [] := by
    intro h
    exact absurd (hne h).2 (by simp)
  have hlines : wrapLines text font maxW =
      ([[]] ++ d) ++ [(ws.foldl (wrapStep font maxW) ([[]], [w])).2] := by
    unfold wrapLines
    rw [hfold, if_neg hcur, hpre]
  constructor
  · rw [hlines]
    rfl
  · unfold get_wrapped_text joinLines
    rw [hlines]
    cases d with
    | nil => rfl
    | cons L2 d' => rfl

/-- Witness for `wrapped_leading_empty_line` at a concrete input. -/
theorem wrapped_leading_empty_line_witness :
    (splitWhitespace "wideword ab" = ["wideword", "ab"] ∧
        5 < String.length "wideword") ∧
      (wrapLines "wideword ab" String.length 5).head? = some [] ∧
        (get_wrapped_text "wideword ab" String.length 5).data.head? =
          some '\n' :=
  ⟨⟨by decide, by decide⟩,
    wrapped_leading_empty_line "wideword ab" String.length 5 "wideword" ["ab"]
      (by decide) (by decide)⟩

/-! ### Template dispatcher (`src/app/template_selector.py`)

The four render functions `template1.render` … `template4.render` are
denoted by the tags of `RenderFn`; `applyRender` (defined after the render
pipelines below) interprets each tag as the corresponding embedded render
function. -/

/-- The four registered render functions, as tags. -/
inductive RenderFn where
  | template1
  | template2
  | template3
  | template4
deriving DecidableEq

/-- One entry of the `TEMPLATES` registry: render function and display
metadata. -/
structure TemplateInfo where
  render : RenderFn
  name : String
  descr : String
  preview_color : String
deriving DecidableEq

/-- The `TEMPLATES` registry (dict, in insertion order). -/
def TEMPLATES : List (String × TemplateInfo) :=
  [("classic",
    ⟨.template1, "Classic Elegant",
      "Timeless design with gradient overlay and ribbon CTA", "#E63946"⟩),
   ("modern",
    ⟨.template2, "Modern Bold",
      "Contemporary layout with bold typography", "#3B82F6"⟩),
   ("minimal",
    ⟨.template3, "Minimal Clean",
      "Clean minimalist design with focus on visuals", "#10B981"⟩),
   ("luxury",
    ⟨.template4, "Premium Luxury",
      "High-end luxury aesthetic with golden accents", "#F59E0B"⟩)]

/-- `TEMPLATE_ALIASES` (template1 → classic, etc.). -/
def TEMPLATE_ALIASES : List (String × String) :=
  [("template1", "classic"),
   ("template2", "modern"),
   ("template3", "minimal"),
   ("template4", "luxury")]

/-- `TEMPLATE_LIST = list(TEMPLATES.values())`, used for random selection. -/
def TEMPLATE_LIST : List TemplateInfo := TEMPLATES.map Prod.snd

/-- `pick_template(template_id)`.  `random.choice(TEMPLATE_LIST)` is modeled
by the uniformly-drawn index `randPick`; `template_id = None` is `none`.
Python's truthiness test `if template_id and template_id != 'random'` treats
`None` and the empty string as falsy. -/
def pick_template (randPick : Fin TEMPLATE_LIST.length)
    (template_id : Option String) : RenderFn :=
  match template_id with
  | some tid =>
    if tid ≠ "" ∧ tid ≠ "random" then
      let resolved := ((TEMPLATE_ALIASES.lookup tid).getD tid)
      match TEMPLATES.lookup resolved with
      | some t => t.render
      | none => (TEMPLATE_LIST.get randPick).render
    else
      (TEMPLATE_LIST.get randPick).render
  | none => (TEMPLATE_LIST.get randPick).render

/-- A template id (canonical or alias) resolves to a registry entry. -/
def recognized (tid : String) : Bool :=
  (TEMPLATES.lookup ((TEMPLATE_ALIASES.lookup tid).getD tid)).isSome

/-- **C2.** For every known canonical key (`classic`, `modern`, `minimal`,
`luxury`) and every known alias (`template1` … `template4`), `pick_template`
returns exactly the mapped render function, regardless of the random draw;
in particular `pick_template "template1"` always agrees with
`pick_template "classic"`. -/
theorem pick_template_known :
    (∀ r : Fin TEMPLATE_LIST.length,
      pick_template r (some "classic") = .template1 ∧
      pick_template r (some "modern") = .template2 ∧
      pick_template r (some "minimal") = .template3 ∧
      pick_template r (some "luxury") = .template4 ∧
      pick_template r (some "template1") = .template1 ∧
      pick_template r (some "template2") = .template2 ∧
      pick_template r (some "template3") = .template3 ∧
      pick_template r (some "template4") = .template4) ∧
    (∀ r r' : Fin TEMPLATE_LIST.length,
      pick_template r (some "template1") = pick_template r' (some "classic")) := by
  decide

/-- **C3.** If `template_id` is absent, equals `"random"`, or is non-empty
but unrecognized, `pick_template` raises no error and returns the entry of
`TEMPLATE_LIST` at the uniformly-drawn index; the draw index determines each
of the four registered render functions exactly once (uniform choice among
the four), and every call returns one of the four registered render
functions. -/
theorem pick_template_fallback (r : Fin TEMPLATE_LIST.length)
    (template_id : Option String)
    (h : template_id = none ∨ template_id = some "random" ∨
      ∃ t, template_id = some t ∧ t ≠ "" ∧ recognized t = false) :
    pick_template r template_id = (TEMPLATE_LIST.get r).render ∧
    ((∀ r' r'' : Fin TEMPLATE_LIST.length,
        (TEMPLATE_LIST.get r').render = (TEMPLATE_LIST.get r'').render →
          r' = r'') ∧
      (∃ r' : Fin TEMPLATE_LIST.length,
        (TEMPLATE_LIST.get r').render = .template1) ∧
      (∃ r' : Fin TEMPLATE_LIST.length,
        (TEMPLATE_LIST.get r').render = .template2) ∧
      (∃ r' : Fin TEMPLATE_LIST.length,
        (TEMPLATE_LIST.get r').render = .template3) ∧
      (∃ r' : Fin TEMPLATE_LIST.length,
        (TEMPLATE_LIST.get r').render = .template4)) ∧
    (pick_template r template_id = .template1 ∨
      pick_template r template_id = .template2 ∨
      pick_template r template_id = .template3 ∨
      pick_template r template_id = .template4) := by
  have hmain : pick_template r template_id = (TEMPLATE_LIST.get r).render := by
    rcases h with h | h | ⟨t, ht, hne, hun⟩
    · rw [h]; rfl
    · rw [h]; rfl
    · subst ht
      by_cases hr : t = "random"
      · simp [pick_template, hr]
      · unfold recognized at hun
        rcases hl : TEMPLATES.lookup ((TEMPLATE_ALIASES.lookup t).getD t) with
          - | v
        · simp [pick_template, hne, hr, hl]
        · rw [hl] at hun
          simp at hun
  have hall : ∀ r : Fin TEMPLATE_LIST.length,
      (TEMPLATE_LIST.get r).render = .template1 ∨
        (TEMPLATE_LIST.get r).render = .template2 ∨
        (TEMPLATE_LIST.get r).render = .template3 ∨
        (TEMPLATE_LIST.get r).render = .template4 := by decide
  exact ⟨hmain, by decide, hmain ▸ hall r⟩

/-- Witness for `pick_template_fallback` at a concrete unrecognized id. -/
theorem pick_template_fallback_witness :
    ((some "art-deco" : Option String) = none ∨
        (some "art-deco" : Option String) = some "random" ∨
        ∃ t, (some "art-deco" : Option String) = some t ∧ t ≠ "" ∧
          recognized t = false) ∧
      (pick_template ⟨2, by decide⟩ (some "art-deco") =
          (TEMPLATE_LIST.get ⟨2, by decide⟩).render ∧
        ((∀ r' r'' : Fin TEMPLATE_LIST.length,
            (TEMPLATE_LIST.get r').render = (TEMPLATE_LIST.get r'').render →
              r' = r'') ∧
          (∃ r' : Fin TEMPLATE_LIST.length,
            (TEMPLATE_LIST.get r').render = .template1) ∧
          (∃ r' : Fin TEMPLATE_LIST.length,
            (TEMPLATE_LIST.get r').render = .template2) ∧
          (∃ r' : Fin TEMPLATE_LIST.length,
            (TEMPLATE_LIST.get r').render = .template3) ∧
          (∃ r' : Fin TEMPLATE_LIST.length,
            (TEMPLATE_LIST.get r').render = .template4)) ∧
        (pick_template ⟨2, by decide⟩ (some "art-deco") = .template1 ∨
          pick_template ⟨2, by decide⟩ (some "art-deco") = .template2 ∨
          pick_template ⟨2, by decide⟩ (some "art-deco") = .template3 ∨
          pick_template ⟨2, by decide⟩ (some "art-deco") = .template4)) :=
  ⟨Or.inr (Or.inr ⟨"art-deco", rfl, by decide, by decide⟩),
    pick_template_fallback ⟨2, by decide⟩ (some "art-deco")
      (Or.inr (Or.inr ⟨"art-deco", rfl, by decide, by decide⟩))⟩

/-! ### The graphics model

Pillow images are embedded symbolically: each constructor of `Img` records
one image operation as invoked by the source, applied to its operand
images.  The filesystem is an explicit map `World` from path strings
(relative to `PROJECT_ROOT`) to file contents.  Font measurements and the
one float-valued pixel formula are abstracted into a deterministic
environment `Metrics`. -/

/-- Pixel colors as they appear in the source: RGB/RGBA tuples, named or
hex color strings, and single-channel ("L" mode) gray levels. -/
inductive Color where
  | rgb (r g b : Nat)
  | rgba (r g b a : Nat)
  | named (s : String)
  | gray (v : Nat)
deriving DecidableEq

/-- A Pillow font handle: a parsed TrueType font at a pixel size, or the
built-in default bitmap font returned by `ImageFont.load_default()`. -/
inductive Font where
  | ttf (fontId : Nat) (size : Nat)
  | defaultFont
deriving DecidableEq

/-- One `ImageDraw` command, recording the arguments the source passes. -/
inductive DrawCmd where
  | text (x y : Int) (s : String) (font : Font) (fill : Color)
      (anchor : Option String) (align : Option String)
  | multilineText (x y : Int) (s : String) (font : Font) (fill : Color)
      (spacing : Option Int) (anchor : Option String) (align : Option String)
  | line (x1 y1 x2 y2 : Int) (fill : Color) (width : Nat)
  | rectangle (x1 y1 x2 y2 : Int) (fill : Color)
  | roundedRectangle (x1 y1 x2 y2 : Int) (radius : Int) (fill : Option Color)
      (outline : Option Color) (width : Nat)
  | polygon (pts : List (Int × Int)) (fill : Color)
deriving DecidableEq

/-- Symbolic Pillow images. `pasteMask d s x y m` is `d.paste(s, (x, y), m)`;
`autocrop i` is `i.crop(i.getbbox())`; `putpixel` appears in template1's
gradient loop. -/
inductive Img where
  | new (mode : String) (w h : Nat) (color : Option Color)
  | convert (i : Img) (mode : String)
  | resize (i : Img) (w h : Nat) (filt : Option String)
  | crop (i : Img) (left top right bottom : Int)
  | blur (i : Img) (radius : Nat)
  | paste (dst src : Img) (x y : Int)
  | pasteMask (dst src : Img) (x y : Int) (mask : Img)
  | alphaComposite (a b : Img)
  | composite (a b mask : Img)
  | putalpha (i alpha : Img)
  | rotate (i : Img) (angle : Int) (expand : Bool) (resample : Option String)
  | autocrop (i : Img)
  | putpixel (i : Img) (x y : Nat) (v : Nat)
  | draw (i : Img) (cmd : DrawCmd)
deriving DecidableEq

/-- File contents in the modeled filesystem: a PNG encoding of an image
(Pillow's PNG encoder is deterministic, so equal images encode to equal
bytes and distinct images to distinct bytes), a TrueType font file, or
bytes no decoder accepts. -/
inductive FC where
  | png (i : Img)
  | fontFile (fontId : Nat)
  | raw (n : Nat)
deriving DecidableEq

/-- The filesystem: a map from path (relative to `PROJECT_ROOT`) to file
contents. -/
def World : Type := String → Option FC

/-- Writing a file. -/
def World.insert (w : World) (k : String) (v : FC) : World :=
  fun p => if p = k then some v else w p

theorem World.insert_ne (w : World) (k p : String) (v : FC) (h : p ≠ k) :
    World.insert w k v p = w p := if_neg h

theorem World.insert_self (w : World) (k : String) (v : FC) :
    World.insert w k v k = some v := if_pos rfl

/-- Decoding file contents as an image: undecodable bytes raise. -/
def decodeFC : FC → Except String Img
  | .png i => .ok i
  | .fontFile _ => .error "cannot identify image file"
  | .raw _ => .error "cannot identify image file"

/-- `Image.open(path)`: raises on a missing file or undecodable contents. -/
def openImage (w : World) (path : String) : Except String Img :=
  match w path with
  | none => .error ("No such file or directory: " ++ path)
  | some f => decodeFC f

/-- `ImageFont.truetype(path, size)`: raises unless the file exists and
holds a parseable font. -/
def truetype (w : World) (path : String) (size : Nat) : Except String Font :=
  match w path with
  | none => .error ("No such file or directory: " ++ path)
  | some (.fontFile n) => .ok (.ttf n size)
  | some _ => .error "not a font file"

/-- `load_font(path, size)` as defined identically in template1-4:
`try: return ImageFont.truetype(path, size) except Exception: return
ImageFont.load_default()`. -/
def load_font (w : World) (path : String) (size : Nat) : Font :=
  match truetype w path size with
  | .ok f => f
  | .error _ => .defaultFont

/-- `load_icon(path, size)` (template1.py lines 38-41; same shape in
template3/template4): `None` if the path is falsy or does not exist,
otherwise `Image.open(path).convert("RGBA").resize(size)`.  Note that a
failure of `Image.open` on an existing file propagates: there is no
try/except here. -/
def load_icon (w : World) (path : Option String) (szw szh : Nat) :
    Except String (Option Img) :=
  match path with
  | none => .ok none
  | some p =>
    if p = "" then .ok none
    else
      match w p with
      | none => .ok none
      | some f =>
        (decodeFC f).map fun i => some ((i.convert "RGBA").resize szw szh none)

/-- `load_logo(path, size)` (template1.py lines 44-47; same shape in
template3/template4): textually the same logic as `load_icon` with a
different default size. -/
def load_logo (w : World) (path : Option String) (szw szh : Nat) :
    Except String (Option Img) :=
  match path with
  | none => .ok none
  | some p =>
    if p = "" then .ok none
    else
      match w p with
      | none => .ok none
      | some f =>
        (decodeFC f).map fun i => some ((i.convert "RGBA").resize szw szh none)

/-- `Image.size` for symbolic images.  `none` means the size is not tracked
by the model (rotation with `expand=True` and bounding-box crops depend on
pixel data); the render pipelines below query sizes only on images that
never pass through those operations. -/
def sizeI : Img → Option (Nat × Nat)
  | .new _ w h _ => some (w, h)
  | .convert i _ => sizeI i
  | .resize _ w h _ => some (w, h)
  | .crop _ l t r b => some ((r - l).toNat, (b - t).toNat)
  | .blur i _ => sizeI i
  | .paste d _ _ _ => sizeI d
  | .pasteMask d _ _ _ _ => sizeI d
  | .alphaComposite a _ => sizeI a
  | .composite a _ _ => sizeI a
  | .putalpha i _ => sizeI i
  | .rotate i _ expand _ => if expand then none else sizeI i
  | .autocrop _ => none
  | .putpixel i _ _ _ => sizeI i
  | .draw i _ => sizeI i

/-- Deterministic host-environment functions used by the renders: Pillow
font measurements (`draw.textlength`, `draw.textbbox` at origin,
`draw.multiline_textbbox` at origin with a spacing argument,
`font.getlength`, the `font.size` attribute) and the float-valued gradient
alpha formula of template4, `int(240 * (1 - (y / 600) ** 1.2))`, which has
no exact rational form.  All are fixed functions of their arguments:
rendering reads them, never changes them. -/
structure Metrics where
  textlength : Font → String → Int
  textbbox : Font → String → Int × Int × Int × Int
  multilineTextbbox : Font → String → Int → Int × Int × Int × Int
  getlength : Font → String → Nat
  fontSize : Font → Int
  gradAlpha4 : Nat → Nat

/-- The `content` dict (MarketingCopy).  `subline2` is read with
`content.get("subline2", "")` and so may be absent. -/
structure MarketingCopy where
  title : String
  subline : String
  subline2 : Option String
  amenities : List String
  cta : String
deriving DecidableEq

/-- The `data` dict: the PropertyData fields the renderers read.
`logo_path` is read with `data.get("logo_path")` and so may be absent. -/
structure PropertyData where
  bhk : String
  price : String
  phone : String
  logo_path : Option String
deriving DecidableEq

/-- `os.path.join(OUTPUT_FOLDER, f"poster_{job_id}.png")`, relative to
`PROJECT_ROOT`. -/
def outPath (job_id : String) : String :=
  "outputs/poster_" ++ job_id ++ ".png"

/-- Decidable equality of `Except` results, for evaluating loader outcomes
on concrete inputs. -/
instance exceptDecEq {e a : Type} [DecidableEq e] [DecidableEq a] :
    DecidableEq (Except e a) := fun x y =>
  match x, y with
  | .ok u, .ok v =>
    if h : u = v then isTrue (by rw [h])
    else isFalse (by intro hc; exact h (Except.ok.inj hc))
  | .error u, .error v =>
    if h : u = v then isTrue (by rw [h])
    else isFalse (by intro hc; exact h (Except.error.inj hc))
  | .ok _, .error _ => isFalse (fun hc => Except.noConfusion hc)
  | .error _, .ok _ => isFalse (fun hc => Except.noConfusion hc)

/-! ### C4: soft-failing asset loaders -/

/-- A filesystem whose icon file exists but holds undecodable bytes. -/
def corruptIconWorld : World :=
  fun p => if p = "assets/call.png" then some (.raw 7) else none

/-- **C4, counterexample.** The claim says `load_icon` returns nothing for
an icon that is "not found or unreadable".  For an icon file that exists
but is unreadable, `Image.open` raises and `load_icon` propagates the
error instead of returning `None`: the failure is surfaced to the caller
of `render`. -/
theorem load_icon_unreadable_surfaces :
    (corruptIconWorld "assets/call.png").isSome = true ∧
      load_icon corruptIconWorld (some "assets/call.png") 90 90 ≠ .ok none ∧
      load_icon corruptIconWorld (some "assets/call.png") 90 90 =
        .error "cannot identify image file" := by
  decide

/-- **C4, amended.** `load_font` never raises: it returns the parsed font on
success and the built-in default font on any load error.  `load_icon` and
`load_logo` return `None` (layer omitted) when the path is absent, empty,
or does not exist; but when the path exists and its contents are
undecodable, the decode error propagates. -/
theorem asset_loaders_amended :
    (∀ (w : World) (p : String) (s : Nat) (e : String),
      truetype w p s = .error e → load_font w p s = .defaultFont) ∧
    (∀ (w : World) (p : String) (s : Nat) (f : Font),
      truetype w p s = .ok f → load_font w p s = f) ∧
    (∀ (w : World) (szw szh : Nat),
      load_icon w none szw szh = .ok none ∧
        load_logo w none szw szh = .ok none) ∧
    (∀ (w : World) (p : String) (szw szh : Nat), (p = "" ∨ w p = none) →
      load_icon w (some p) szw szh = .ok none ∧
        load_logo w (some p) szw szh = .ok none) ∧
    (∀ (w : World) (p : String) (szw szh : Nat) (f : FC) (e : String),
      p ≠ "" → w p = some f → decodeFC f = .error e →
        load_icon w (some p) szw szh = .error e ∧
          load_logo w (some p) szw szh = .error e) := by
  refine ⟨?_, ?_, ?_, ?_, ?_⟩
  · intro w p s e h
    unfold load_font
    rw [h]
  · intro w p s f h
    unfold load_font
    rw [h]
  · intro w szw szh
    exact ⟨rfl, rfl⟩
  · intro w p szw szh h
    rcases h with h | h
    · subst h
      exact ⟨rfl, rfl⟩
    · exact ⟨by simp [load_icon, h], by simp [load_logo, h]⟩
  · intro w p szw szh f e hp hw hf
    cases f with
    | png i => exact absurd hf (by simp [decodeFC])
    | fontFile n =>
      obtain rfl : "cannot identify image file" = e := Except.error.inj hf
      constructor
      · simp only [load_icon]
        rw [if_neg hp, hw]
        rfl
      · simp only [load_logo]
        rw [if_neg hp, hw]
        rfl
    | raw n =>
      obtain rfl : "cannot identify image file" = e := Except.error.inj hf
      constructor
      · simp only [load_icon]
        rw [if_neg hp, hw]
        rfl
      · simp only [load_logo]
        rw [if_neg hp, hw]
        rfl

/-- Witness for `asset_loaders_amended` at concrete inputs. -/
theorem asset_loaders_amended_witness :
    (truetype corruptIconWorld "fonts/Oswald-Bold.ttf" 42 =
        .error ("No such file or directory: " ++ "fonts/Oswald-Bold.ttf") ∧
      load_font corruptIconWorld "fonts/Oswald-Bold.ttf" 42 = .defaultFont) ∧
    (corruptIconWorld "assets/logo.png" = none ∧
      load_icon corruptIconWorld (some "assets/logo.png") 90 90 = .ok none) ∧
    ("assets/call.png" ≠ "" ∧
      corruptIconWorld "assets/call.png" = some (.raw 7) ∧
      decodeFC (.raw 7) = .error "cannot identify image file" ∧
      load_icon corruptIconWorld (some "assets/call.png") 90 90 =
        .error "cannot identify image file") :=
  ⟨⟨rfl,
    asset_loaders_amended.1 corruptIconWorld "fonts/Oswald-Bold.ttf" 42 _ rfl⟩,
   ⟨rfl,
    (asset_loaders_amended.2.2.2.1 corruptIconWorld "assets/logo.png" 90 90
      (Or.inr rfl)).1⟩,
   ⟨by decide, rfl, rfl,
    (asset_loaders_amended.2.2.2.2 corruptIconWorld "assets/call.png" 90 90
      (.raw 7) "cannot identify image file" (by decide) rfl rfl).1⟩⟩

/-! ### Template 1 (`src/app/templates/template1.py`) -/

/-- `draw_text_with_shadow` (template1.py): a shadow pass 3px below in
semi-transparent black, then the face at the anchor, both with
`anchor="mm"`. -/
def t1_draw_text_with_shadow (c : Img) (x y : Int) (s : String) (f : Font)
    (fill : Color) : Img :=
  (c.draw (.text x (y + 3) s f (.rgba 0 0 0 220) (some "mm") none)).draw
    (.text x y s f fill (some "mm") none)

/-- `draw_amenities_horizontal_wrapped` (template1.py): walk the items left
to right pasting a tick icon and drawing the text; wrap to a new row
(advance by `font.size + row_gap`, reset to `start_x`) when the next pair
would overflow `start_x + max_width`.  `icon_size=24`, `gap=16`,
`row_gap=12`. -/
def t1_amenities (tick : Img) (m : Metrics) (font : Font)
    (start_x max_width : Int) : List String → Int × Int × Img → Img
  | [], (_, _, c) => c
  | item :: rest, (x, y, c) =>
    let text_width := m.textlength font item
    let total_width := 24 + 16 + text_width + 30
    let p := if x + total_width > start_x + max_width then
        (start_x, y + m.fontSize font + 12)
      else (x, y)
    let c := c.pasteMask tick p.1 (p.2 + 6) tick
    let c := c.draw (.text (p.1 + 24 + 16) p.2 item font (.named "#F1F1F1")
      none none)
    t1_amenities tick m font start_x max_width rest (p.1 + total_width, p.2, c)

/-- `add_bottom_gradient` (template1.py): build a 1×520 "L" ramp via
`putpixel` (`int(255 * (y / height))` is the floor of `255 * y / 520`),
resize it to full width, use it as the alpha of a black bar, and paste the
bar at the canvas bottom. -/
def t1_add_bottom_gradient (canvas : Img) : Img :=
  let grad := (List.range 520).foldl
    (fun g y => Img.putpixel g 0 y (255 * y / 520)) (Img.new "L" 1 520 none)
  let grad := grad.resize 1080 520 none
  let black := Img.new "RGBA" 1080 520 (some (.rgba 0 0 0 255))
  let black := black.putalpha grad
  canvas.pasteMask black 0 (1350 - 520) black

/-- The compositing pipeline of `template1.render` up to (but excluding)
the final save.  The module-level `TICK_ICON` load runs first (it runs
when the module is imported in the source, so a missing or unreadable tick
asset prevents any render).  A missing or undecodable background is fatal. -/
def t1_canvas (m : Metrics) (w : World) (bg_path : String)
    (content : MarketingCopy) (data : PropertyData) : Except String Img := do
  let tick0 ← openImage w "assets/tick.png"
  let tick_icon := (tick0.convert "RGBA").resize 24 24 none
  let canvas := Img.new "RGBA" 1080 1350 none
  let bg0 ← openImage w bg_path
  let bg := (bg0.convert "RGBA").resize 1080 1350 none
  let canvas := canvas.paste bg 0 0
  let canvas := t1_add_bottom_gradient canvas
  let title_font := load_font w "fonts/Cinzel-ExtraBold.ttf" 70
  let subtitle_font := load_font w "fonts/Montserrat-Regular.ttf" 36
  let price_font := load_font w "fonts/Montserrat-Bold.ttf" 44
  let amenity_font := load_font w "fonts/Roboto_Condensed-SemiBold.ttf" 36
  let phone_font := load_font w "fonts/Montserrat-Bold.ttf" 56
  let cta_font := load_font w "fonts/Oswald-Bold.ttf" 42
  let canvas := t1_draw_text_with_shadow canvas 540 120 content.title
    title_font (.named "white")
  let canvas := t1_draw_text_with_shadow canvas 540 200
    content.subline.toUpper subtitle_font (.named "#E63946")
  let price := data.bhk ++ "  |  " ++ data.price
  let canvas := t1_draw_text_with_shadow canvas 540 260 price price_font
    (.named "white")
  let ribbon := Img.new "RGBA" 600 78 (some (.rgba 200 30 30 255))
  let mask := Img.new "L" 600 78 (some (.gray 255))
  let mask := mask.draw
    (.polygon [(600, 0), (600 - 35, Int.fdiv 78 2), (600, 78)] (.gray 0))
  let ribbon := ribbon.putalpha mask
  let tw := m.textlength cta_font content.cta
  let tx := Int.fdiv (600 - 35 - tw) 2
  let ty := Int.fdiv (78 - m.fontSize cta_font) 2 - 4
  let ribbon := ribbon.draw
    (.text tx ty content.cta cta_font (.named "white") none none)
  let ribbon := ((ribbon.rotate 8 true (some "BICUBIC"))).autocrop
  let canvas := canvas.pasteMask ribbon (-10) 620 ribbon
  let canvas := t1_amenities tick_icon m amenity_font 120 840
    content.amenities (120, 1000, canvas)
  let footer := Img.new "RGBA" 1080 90 (some (.rgba 200 30 30 255))
  let canvas := canvas.paste footer 0 1150
  let icon? ← load_icon w (some "assets/call.png") 90 90
  let canvas := match icon? with
    | some icon => canvas.pasteMask icon 220 1160 icon
    | none => canvas
  let canvas := canvas.draw
    (.text 330 1170 data.phone phone_font (.named "white") none none)
  return canvas

/-- `template1.render`: compute the canvas, save it as a PNG at
`outputs/poster_<job_id>.png`, and return that path. -/
def t1_render (m : Metrics) (w : World) (bg_path : String)
    (content : MarketingCopy) (data : PropertyData) (job_id : String) :
    Except String (World × String) :=
  (t1_canvas m w bg_path content data).map fun canvas =>
    (w.insert (outPath job_id) (.png canvas), outPath job_id)

/-! ### Template 2 (`src/app/templates/template2.py`) -/

/-- One amenity column of template2: paste the tick at
`x - (tick_size + icon_gap)` and draw the text at `(x, y)`, advancing `y`
by 42 per row (`tick_size=28`, `icon_gap=14`). -/
def t2_amenity_col (tick : Img) (font : Font) (x : Int) :
    List String → Int → Img → Img
  | [], _, c => c
  | item :: rest, y, c =>
    let c := c.pasteMask tick (x - (28 + 14)) (y + 4) tick
    let c := c.draw (.text x y item font (.rgb 255 255 255) none none)
    t2_amenity_col tick font x rest (y + 42) c

/-- The amenity stage of template2 (lines 169-188): `amenities[:2]` in the
left column at `x=250`, `amenities[2:4]` in the right column at `x=620`,
both starting at `y=1150`. -/
def t2_amenities (tick : Img) (font : Font) (amenities : List String)
    (c : Img) : Img :=
  let left_items := amenities.take 2
  let right_items := (amenities.drop 2).take 2
  let c := t2_amenity_col tick font 250 left_items 1150 c
  t2_amenity_col tick font 620 right_items 1150 c

/-- The intermediate stages of `template2.render` the claims refer to: the
pristine resized background (`base`), the frosted-glass panel (`glass`),
and the final canvas. -/
structure T2Parts where
  base : Img
  glass : Img
  canvas : Img
deriving DecidableEq

/-- The compositing pipeline of `template2.render` up to (but excluding)
the final save, also returning the `base` and `glass` intermediates.
`canvas = base.copy()` is value-equal to `base`; subsequent canvas
operations build new symbolic images, leaving `base` pristine exactly as
the mutable-object source leaves the un-drawn `base` pristine. -/
def t2_canvas_parts (m : Metrics) (w : World) (bg_path : String)
    (content : MarketingCopy) (data : PropertyData) :
    Except String T2Parts := do
  let bg0 ← openImage w bg_path
  let base := (bg0.convert "RGBA").resize 1080 1350 none
  let canvas := base
  let title_font := load_font w "fonts/Montserrat-SemiBold.ttf" 80
  let price_font := load_font w "fonts/Montserrat-Bold.ttf" 52
  let amenity_font := load_font w "fonts/Montserrat-Bold.ttf" 30
  let cta_font := load_font w "fonts/Montserrat-Bold.ttf" 36
  let tick0 ← openImage w "assets/tick2.png"
  let tick := (tick0.convert "RGBA").resize 28 28 (some "LANCZOS")
  let canvas := canvas.draw (.text 540 90 content.title title_font
    (.rgb 255 255 255) (some "mm") (some "center"))
  let canvas := canvas.draw (.line 250 170 800 170 (.rgba 255 220 255 200) 2)
  let card_x := Int.fdiv (1080 - 820) 2
  let card_y : Int := 880
  let blurred_bg :=
    (base.crop card_x card_y (card_x + 820) (card_y + 190)).blur 10
  let card_mask := (Img.new "L" 820 190 (some (.gray 0))).draw
    (.roundedRectangle 0 0 820 190 32 (some (.gray 255)) none 0)
  let glass := Img.composite blurred_bg
    (Img.new "RGBA" 820 190 (some (.rgba 255 255 255 30))) card_mask
  let canvas := canvas.pasteMask glass card_x card_y card_mask
  let glow := Img.new "RGBA" 1080 1350 (some (.rgba 0 0 0 0))
  let glow := glow.draw (.roundedRectangle (card_x - 8) (card_y - 8)
    (card_x + 820 + 8) (card_y + 190 + 8) (32 + 6)
    (some (.rgba 120 200 255 0)) none 0)
  let glow := glow.blur 18
  let canvas := Img.alphaComposite canvas glow
  let glow_layer := Img.new "RGBA" 1080 1350 (some (.rgba 0 0 0 0))
  let glow_layer := glow_layer.draw (.roundedRectangle (card_x - 6)
    (card_y - 6) (card_x + 820 + 6) (card_y + 190 + 6) (32 + 6) none
    (some (.rgba 0 180 255 255)) 10)
  let glow_layer := glow_layer.blur 12
  let canvas := Img.alphaComposite canvas glow_layer
  let canvas := canvas.draw (.roundedRectangle card_x card_y (card_x + 820)
    (card_y + 190) 32 none (some (.rgba 0 220 255 200)) 4)
  let canvas := canvas.draw (.text 540 (card_y + Int.fdiv 190 2)
    (data.bhk ++ "\nSTARTING FROM " ++ data.price) price_font
    (.rgb 255 255 255) (some "mm") (some "center"))
  let tag := Img.new "RGBA" 250 100 (some (.rgba 210 40 40 255))
  let tag := tag.draw (.multilineText 120 40 "EXCLUSIVE\nPRE-LAUNCH"
    amenity_font (.named "white") none (some "mm") (some "center"))
  let tag := tag.rotate 8 true none
  let canvas := canvas.pasteMask tag 170 (card_y - 120) tag
  let canvas := t2_amenities tick amenity_font content.amenities canvas
  let cta := Img.new "RGBA" 420 80 (some (.rgba 0 0 0 0))
  let cta_mask := (Img.new "L" 420 80 (some (.gray 0))).draw
    (.roundedRectangle 0 0 420 80 (Int.fdiv 80 2) (some (.gray 255)) none 0)
  let cta_bg := (Img.new "RGBA" 420 80 (some (.rgba 220 40 40 255))).putalpha
    cta_mask
  let cta := Img.alphaComposite cta cta_bg
  let cta := cta.draw (.text (Int.fdiv 420 2) (Int.fdiv 80 2 - 2) data.phone
    cta_font (.named "white") (some "mm") none)
  let canvas := canvas.pasteMask cta (Int.fdiv (1080 - 420) 2) 1250 cta
  let canvas := canvas.draw (.text 540 210 "LOTLITE REAL ESTATE"
    amenity_font (.rgb 255 255 255) (some "mm") (some "center"))
  return ⟨base, glass, canvas⟩

/-- `template2.render`: compute the canvas, save it as a PNG at
`outputs/poster_<job_id>.png`, and return that path. -/
def t2_render (m : Metrics) (w : World) (bg_path : String)
    (content : MarketingCopy) (data : PropertyData) (job_id : String) :
    Except String (World × String) :=
  (t2_canvas_parts m w bg_path content data).map fun parts =>
    (w.insert (outPath job_id) (.png parts.canvas), outPath job_id)

/-! ### Template 3 (`src/app/templates/template3.py`) -/

/-- `draw_text_with_shadow` (template3.py): parameterized shadow offset and
fill; `anchor="mm"` for both passes. -/
def t3_draw_text_with_shadow (c : Img) (x y : Int) (s : String) (f : Font)
    (fill : Color) (ox oy : Int) (shadow_fill : Color) : Img :=
  (c.draw (.text (x + ox) (y + oy) s f shadow_fill (some "mm") none)).draw
    (.text x y s f fill (some "mm") none)

/-- `draw_amenities` (template3.py): single pass over the full list, column
`idx // max_per_column`, row `idx % max_per_column` (`max_per_column=4`),
`x = 140 + col * (720 // 2 + 60)`, `y = 900 + row * 48`; a dot "tick" and
then the amenity text at `x + 28`. -/
def t3_amenities (font : Font) : List String → Nat → Img → Img
  | [], _, c => c
  | a :: rest, idx, c =>
    let col := idx / 4
    let row := idx % 4
    let x : Int := 140 + (col : Int) * (Int.fdiv 720 2 + 60)
    let y : Int := 900 + (row : Int) * 48
    let c := c.draw (.text x y "." font (.named "#000000") none none)
    let c := c.draw (.text (x + 28) y a font (.named "#222") none none)
    t3_amenities font rest (idx + 1) c

/-- The compositing pipeline of `template3.render` up to (but excluding)
the final save. -/
def t3_canvas (m : Metrics) (w : World) (bg_path : String)
    (content : MarketingCopy) (data : PropertyData) : Except String Img := do
  let canvas := Img.new "RGBA" 1080 1350 none
  let bg0 ← openImage w bg_path
  let bg := (bg0.convert "RGBA").resize 1080 1350 none
  let canvas := canvas.paste bg 0 0
  let title_font := load_font w "fonts/Cinzel-ExtraBold.ttf" 95
  let subtitle_font := load_font w "fonts/Montserrat-Regular.ttf" 40
  let amenity_font := load_font w "fonts/Roboto_Condensed-SemiBold.ttf" 50
  let phone_font := load_font w "fonts/Montserrat-Bold.ttf" 60
  let cta_font := load_font w "fonts/Oswald-Bold.ttf" 50
  let canvas := t3_draw_text_with_shadow canvas 540 120 content.title
    title_font (.named "white") 6 6 (.rgba 0 0 0 255)
  let canvas := t3_draw_text_with_shadow canvas 540 210 content.subline
    subtitle_font (.named "#eeeeee") 0 2 (.rgba 0 0 0 190)
  let card := Img.new "RGBA" 900 440 (some (.rgba 255 255 255 255))
  let mask := Img.new "L" 900 440 (some (.gray 150))
  let mask := mask.draw
    (.roundedRectangle 0 0 900 440 27 (some (.gray 150)) none 0)
  let card := card.putalpha mask
  let canvas := canvas.pasteMask card 90 770 card
  let canvas := t3_amenities amenity_font content.amenities 0 canvas
  let ribbon := Img.new "RGBA" 600 80 (some (.rgba 200 30 30 255))
  let rmask := Img.new "L" 600 80 (some (.gray 255))
  let rmask := rmask.draw
    (.polygon [(600, 0), (600 - 35, Int.fdiv 80 2), (600, 80)] (.gray 0))
  let ribbon := ribbon.putalpha rmask
  let bb := m.textbbox cta_font content.cta
  let tw := bb.2.2.1 - bb.1
  let th := bb.2.2.2 - bb.2.1
  let ribbon := ribbon.draw (.text (Int.fdiv (600 - 35 - tw) 2)
    (Int.fdiv (80 - th) 2 - 20) content.cta cta_font (.named "white")
    none none)
  let shadow := (Img.new "RGBA" 600 80 (some (.rgba 0 0 0 100))).putalpha
    rmask
  let shadow := (shadow.rotate 8 true none).blur 8
  let ribbon := ribbon.rotate 8 true none
  let shadow := shadow.autocrop
  let ribbon := ribbon.autocrop
  let canvas := canvas.pasteMask shadow (-5) 648 shadow
  let canvas := canvas.pasteMask ribbon (-10) 630 ribbon
  let footer := Img.new "RGBA" 1080 140 (some (.rgba 15 30 50 255))
  let canvas := canvas.paste footer 0 1210
  let canvas := canvas.draw
    (.text 250 1240 data.phone phone_font (.named "white") none none)
  let call_icon? ← load_icon w (some "assets/call.png") 110 110
  let canvas := match call_icon? with
    | some icon => canvas.pasteMask icon 145 1220 icon
    | none => canvas
  let logo? ← load_logo w data.logo_path 230 110
  let canvas := match logo? with
    | some logo => canvas.pasteMask logo 800 1220 logo
    | none => canvas
  return canvas

/-- `template3.render`: compute the canvas, save it as a PNG at
`outputs/poster_<job_id>.png`, and return that path. -/
def t3_render (m : Metrics) (w : World) (bg_path : String)
    (content : MarketingCopy) (data : PropertyData) (job_id : String) :
    Except String (World × String) :=
  (t3_canvas m w bg_path content data).map fun canvas =>
    (w.insert (outPath job_id) (.png canvas), outPath job_id)

/-! ### Template 4 (`src/app/templates/template4.py`) -/

/-- The amenity stage of template4: the first three amenities zipped with
the fixed vertical positions `[1150, 1270, 1390]`, each drawn inside a red
rectangle sized from its text bbox (`padding 40×15`), centered at
`x = 250`. -/
def t4_amenities (m : Metrics) (font : Font) : List (String × Int) → Img → Img
  | [], c => c
  | (tx, y) :: rest, c =>
    let bb := m.textbbox font tx
    let tw := bb.2.2.1 - bb.1
    let th := bb.2.2.2 - bb.2.1
    let c := c.draw (.rectangle (250 - Int.fdiv tw 2 - 40)
      (y - Int.fdiv th 2 - 15) (250 + Int.fdiv tw 2 + 40)
      (y + Int.fdiv th 2 + 15) (.rgb 200 30 30))
    let c := c.draw (.text (250 - Int.fdiv tw 2) (y - Int.fdiv th 2 - 4) tx
      font (.rgb 255 255 255) none none)
    t4_amenities m font rest c

/-- The compositing pipeline of `template4.render` up to (but excluding)
the final save.  The canvas dimensions are `template.size`, the size of the
decoded `templates/template2.png` asset; a size the model does not track is
reported as an error (it never arises for sizes of decoded PNG files used
in the claims). -/
def t4_canvas (m : Metrics) (w : World) (bg_path : String)
    (content : MarketingCopy) (data : PropertyData) : Except String Img := do
  let template0 ← openImage w "templates/template2.png"
  let template := template0.convert "RGBA"
  let bg0 ← openImage w bg_path
  let bg := bg0.convert "RGBA"
  match sizeI template with
  | none => throw "template size not tracked by the model"
  | some (wd, ht) =>
    let canvas := Img.new "RGBA" wd ht (some (.rgba 255 255 255 255))
    let bg_resized := bg.resize wd 1200 (some "LANCZOS")
    let canvas := canvas.paste bg_resized 0 0
    let overlay := Img.new "RGBA" wd ht (some (.rgba 0 0 0 0))
    let overlay := (List.range 600).foldl
      (fun ov y => ov.draw
        (.line 0 (y : Int) (wd : Int) (y : Int)
          (.rgba 12 48 80 (m.gradAlpha4 y)) 0))
      overlay
    let canvas := Img.alphaComposite canvas overlay
    let canvas := Img.alphaComposite canvas template
    let title_font := load_font w "fonts/Cinzel-ExtraBold.ttf" 95
    let subtitle_font := load_font w "fonts/DMSerifDisplay-Italic.ttf" 70
    let amenity_font := load_font w "fonts/Inter-Medium.ttf" 40
    let phone_font := load_font w "fonts/Montserrat-SemiBold.ttf" 85
    let sub2_font := load_font w "fonts/Montserrat-Bold.ttf" 80
    let logo? ← load_logo w data.logo_path 360 180
    let canvas := match logo? with
      | some logo => canvas.pasteMask logo 50 1800 logo
      | none => canvas
    let tb := m.textbbox title_font content.title
    let t_w := tb.2.2.1 - tb.1
    let canvas := canvas.draw (.text (Int.fdiv ((wd : Int) - t_w) 2) 20
      content.title title_font (.rgb 255 255 255) none none)
    let wrapped_sub :=
      get_wrapped_text content.subline (m.getlength subtitle_font) 1000
    let sb := m.multilineTextbbox subtitle_font wrapped_sub 10
    let s_w := sb.2.2.1 - sb.1
    let canvas := canvas.draw (.multilineText (Int.fdiv ((wd : Int) - s_w) 2)
      1500 wrapped_sub subtitle_font (.rgb 255 255 255) (some 10) none
      (some "center"))
    let sub2 := content.subline2.getD ""
    let s2b := m.textbbox sub2_font sub2
    let s2_w := s2b.2.2.1 - s2b.1
    let canvas := canvas.draw (.text (Int.fdiv ((wd : Int) - s2_w) 2) 1600
      sub2 sub2_font (.rgb 255 215 0) none none)
    let canvas := t4_amenities m amenity_font
      ((content.amenities.take 3).zip [1150, 1270, 1390]) canvas
    let canvas := canvas.draw
      (.text 770 1800 data.phone phone_font (.rgb 255 255 255) none none)
    let call_icon? ← load_icon w (some "assets/call.png") 110 110
    let canvas := match call_icon? with
      | some icon => canvas.pasteMask icon 640 1760 icon
      | none => canvas
    return canvas

/-- `template4.render`: compute the canvas, save it as a PNG at
`outputs/poster_<job_id>.png`, and return that path. -/
def t4_render (m : Metrics) (w : World) (bg_path : String)
    (content : MarketingCopy) (data : PropertyData) (job_id : String) :
    Except String (World × String) :=
  (t4_canvas m w bg_path content data).map fun canvas =>
    (w.insert (outPath job_id) (.png canvas), outPath job_id)

/-- Interpretation of the registry's render tags as the embedded render
functions. -/
def applyRender : RenderFn →
    Metrics → World → String → MarketingCopy → PropertyData → String →
      Except String (World × String)
  | .template1 => t1_render
  | .template2 => t2_render
  | .template3 => t3_render
  | .template4 => t4_render

/-! ### C6: template2 amenity layout -/

/-- The text-draw commands along an image's canvas spine (the chain of
destination images of `draw`/`paste`), in drawing order: the `(x, y, text)`
of every `.text` command.  Other constructors end the spine; the amenity
layout theorems apply this to a stage acting on an arbitrary base canvas,
so only the commands added by the stage matter. -/
def textCmds : Img → List (Int × Int × String)
  | .draw i c =>
    textCmds i ++
      (match c with
        | .text x y s _ _ _ _ => [(x, y, s)]
        | _ => [])
  | .paste d _ _ _ => textCmds d
  | .pasteMask d _ _ _ _ => textCmds d
  | _ => []

/-- Spec-side description of one fixed amenity column: successive items at
the same `x`, each row a fixed 42px below the previous. -/
def colTexts (x y : Int) : List String → List (Int × Int × String)
  | [] => []
  | item :: rest => (x, y, item) :: colTexts x (y + 42) rest

theorem textCmds_t2_amenity_col (tick : Img) (font : Font) (x : Int) :
    ∀ (items : List String) (y : Int) (c : Img),
      textCmds (t2_amenity_col tick font x items y c) =
        textCmds c ++ colTexts x y items := by
  intro items
  induction items with
  | nil => intro y c; simp [t2_amenity_col, colTexts]
  | cons item rest ih =>
    intro y c
    rw [t2_amenity_col, colTexts, ih]
    simp [textCmds]

/-- **C6.** In template 2's amenity layout, the items at indices 0-1 are
drawn in the left column (`x = 250`) and the items at indices 2-3 in the
right column (`x = 620`), each column starting at `y = 1150` and advancing
by the fixed row height 42; and items at index ≥ 4 are silently dropped:
the stage output only depends on the first four amenities. -/
theorem t2_amenities_layout (tick : Img) (font : Font)
    (amenities : List String) (c : Img) :
    textCmds (t2_amenities tick font amenities c) =
      (textCmds c ++ colTexts 250 1150 (amenities.take 2)) ++
        colTexts 620 1150 ((amenities.drop 2).take 2) ∧
    t2_amenities tick font amenities c =
      t2_amenities tick font (amenities.take 4) c := by
  constructor
  · rw [t2_amenities, textCmds_t2_amenity_col, textCmds_t2_amenity_col]
  · simp [t2_amenities, List.take_take, List.drop_take]

/-! ### C7: the glass panel is built from the pristine background -/

/-- Spec-side glass construction: crop the panel region
(`130 ≤ x < 950`, `880 ≤ y < 1070`) out of the *background* image, apply a
fixed-radius (10px) Gaussian blur, and composite the blurred crop through
the rounded-rectangle mask (radius 32) onto a low-opacity white fill
(alpha 30). -/
def glassSpec (background : Img) : Img :=
  Img.composite ((background.crop 130 880 950 1070).blur 10)
    (Img.new "RGBA" 820 190 (some (.rgba 255 255 255 30)))
    ((Img.new "L" 820 190 (some (.gray 0))).draw
      (.roundedRectangle 0 0 820 190 32 (some (.gray 255)) none 0))

/-- Shape of template2's intermediates: the base is the decoded, resized
background, and the glass panel is the spec's construction applied to that
pristine base. -/
theorem t2_parts_shape (m : Metrics) (w : World) (bg_path : String)
    (content : MarketingCopy) (data : PropertyData) (parts : T2Parts)
    (h : t2_canvas_parts m w bg_path content data = .ok parts) :
    ∃ i, openImage w bg_path = .ok i ∧
      parts.base = (i.convert "RGBA").resize 1080 1350 none ∧
      parts.glass = glassSpec parts.base := by
  unfold t2_canvas_parts at h
  cases hbg : openImage w bg_path with
  | error e =>
    rw [hbg] at h
    simp [Bind.bind, Except.bind] at h
  | ok i =>
    rw [hbg] at h
    cases htick : openImage w "assets/tick2.png" with
    | error e =>
      rw [htick] at h
      simp [Bind.bind, Except.bind] at h
    | ok tickimg =>
      rw [htick] at h
      simp only [Bind.bind, Except.bind, pure, Except.pure] at h
      obtain rfl := Except.ok.inj h
      exact ⟨i, rfl, rfl, rfl⟩

/-- **C7.** In template 2, the glass panel is the spec's frosted-glass
construction applied to the pristine background (the originally loaded and
resized background image), and it is independent of everything already
drawn on the composited canvas: it does not change when the marketing copy
or property data (everything drawn before the panel) change. -/
theorem t2_glass_pristine (m : Metrics) (w : World) (bg_path : String)
    (content : MarketingCopy) (data : PropertyData) (parts : T2Parts)
    (h : t2_canvas_parts m w bg_path content data = .ok parts) :
    (∃ i, openImage w bg_path = .ok i ∧
      parts.base = (i.convert "RGBA").resize 1080 1350 none ∧
      parts.glass = glassSpec parts.base) ∧
    (∀ (content' : MarketingCopy) (data' : PropertyData) (parts' : T2Parts),
      t2_canvas_parts m w bg_path content' data' = .ok parts' →
        parts'.base = parts.base ∧ parts'.glass = parts.glass) := by
  obtain ⟨i, hbg, hbase, hglass⟩ :=
    t2_parts_shape m w bg_path content data parts h
  refine ⟨⟨i, hbg, hbase, hglass⟩, ?_⟩
  intro content' data' parts' h'
  obtain ⟨i', hbg', hbase', hglass'⟩ :=
    t2_parts_shape m w bg_path content' data' parts' h'
  obtain rfl : i = i' := Except.ok.inj (hbg ▸ hbg')
  constructor
  · rw [hbase, hbase']
  · rw [hglass, hglass', hbase, hbase']

/-! ### Concrete sample inputs for witnesses -/

/-- A sample metrics environment for concrete evaluation (any deterministic
metric works; this one is 10px per character). -/
def mSample : Metrics :=
  { textlength := fun _ s => (s.length : Int) * 10
    textbbox := fun _ s => (0, 0, (s.length : Int) * 10, 20)
    multilineTextbbox := fun _ s _ => (0, 0, (s.length : Int) * 10, 40)
    getlength := fun _ s => s.length * 10
    fontSize := fun f =>
      match f with
      | .ttf _ sz => (sz : Int)
      | .defaultFont => 11
    gradAlpha4 := fun y => 240 - 240 * y / 600 }

/-- A sample filesystem: a decodable background, both tick icons, and the
template4 base template (1080×1920, as the spec records); font files and
the call icon are absent, so the loaders fall back or omit. -/
def wSample : World := fun p =>
  if p = "bg.png" then some (.png (Img.new "RGBA" 4 4 none))
  else if p = "assets/tick.png" then some (.png (Img.new "RGBA" 2 2 none))
  else if p = "assets/tick2.png" then some (.png (Img.new "RGBA" 2 2 none))
  else if p = "templates/template2.png" then
    some (.png (Img.new "RGBA" 1080 1920 none))
  else none

/-- Sample marketing copy. -/
def contentSample : MarketingCopy :=
  ⟨"LUXURY REDEFINED", "PREMIUM HOMES AT PUNE", none,
    ["Infinity Pool", "Gym", "Clubhouse"], "BOOK NOW"⟩

/-- Sample property data (no logo). -/
def dataSample : PropertyData :=
  ⟨"3 & 4 BHK", "Rs 2.5 Cr Onwards", "+91 98765 43210", none⟩

/-- Witness for `t2_glass_pristine` at concrete inputs. -/
theorem t2_glass_pristine_witness :
    ∃ parts, t2_canvas_parts mSample wSample "bg.png" contentSample
        dataSample = .ok parts ∧
      ∃ i, openImage wSample "bg.png" = .ok i ∧
        parts.base = (i.convert "RGBA").resize 1080 1350 none ∧
        parts.glass = glassSpec parts.base := by
  obtain ⟨parts, hp⟩ : ∃ parts, t2_canvas_parts mSample wSample "bg.png"
      contentSample dataSample = .ok parts := ⟨_, rfl⟩
  exact ⟨parts, hp,
    (t2_glass_pristine mSample wSample "bg.png" contentSample dataSample
      parts hp).1⟩

/-! ### C5: output path, saved file, canvas dimensions -/

theorem sizeI_t1_amenities (tick : Img) (m : Metrics) (font : Font)
    (sx mw : Int) :
    ∀ (items : List String) (x y : Int) (c : Img),
      sizeI (t1_amenities tick m font sx mw items (x, y, c)) = sizeI c := by
  intro items
  induction items with
  | nil => intro x y c; rfl
  | cons item rest ih =>
    intro x y c
    rw [t1_amenities]
    rw [ih]
    rfl

theorem sizeI_t2_amenity_col (tick : Img) (font : Font) (x : Int) :
    ∀ (items : List String) (y : Int) (c : Img),
      sizeI (t2_amenity_col tick font x items y c) = sizeI c := by
  intro items
  induction items with
  | nil => intro y c; rfl
  | cons item rest ih =>
    intro y c
    rw [t2_amenity_col, ih]
    rfl

theorem sizeI_t2_amenities (tick : Img) (font : Font)
    (amenities : List String) (c : Img) :
    sizeI (t2_amenities tick font amenities c) = sizeI c := by
  rw [t2_amenities, sizeI_t2_amenity_col, sizeI_t2_amenity_col]

theorem sizeI_t3_amenities (font : Font) :
    ∀ (items : List String) (idx : Nat) (c : Img),
      sizeI (t3_amenities font items idx c) = sizeI c := by
  intro items
  induction items with
  | nil => intro idx c; rfl
  | cons a rest ih =>
    intro idx c
    rw [t3_amenities, ih]
    rfl

theorem sizeI_t4_amenities (m : Metrics) (font : Font) :
    ∀ (pairs : List (String × Int)) (c : Img),
      sizeI (t4_amenities m font pairs c) = sizeI c := by
  intro pairs
  induction pairs with
  | nil => intro c; rfl
  | cons p rest ih =>
    intro c
    obtain ⟨tx, y⟩ := p
    rw [t4_amenities, ih]
    rfl

/-- **C5.** Every successful render writes a PNG encoding of its canvas at
`outputs/poster_<job_id>.png` and returns that path, and the canvas has the
template-fixed dimensions: 1080×1350 for templates 1-3 and 1080×1920 for
template 4.  Template 4's canvas takes the dimensions of the decoded
`templates/template2.png` asset, a binary file not part of the sources;
following the spec, its size is the 1080×1920 "story" format, stated here
as the hypotheses on `timg`. -/
theorem render_output_contract :
    (∀ (m : Metrics) (w : World) (bg : String) (c : MarketingCopy)
        (d : PropertyData) (j : String) (cv : Img),
      t1_canvas m w bg c d = .ok cv →
        sizeI cv = some (1080, 1350) ∧
        t1_render m w bg c d j =
          .ok (w.insert (outPath j) (.png cv), outPath j)) ∧
    (∀ (m : Metrics) (w : World) (bg : String) (c : MarketingCopy)
        (d : PropertyData) (j : String) (parts : T2Parts),
      t2_canvas_parts m w bg c d = .ok parts →
        sizeI parts.canvas = some (1080, 1350) ∧
        t2_render m w bg c d j =
          .ok (w.insert (outPath j) (.png parts.canvas), outPath j)) ∧
    (∀ (m : Metrics) (w : World) (bg : String) (c : MarketingCopy)
        (d : PropertyData) (j : String) (cv : Img),
      t3_canvas m w bg c d = .ok cv →
        sizeI cv = some (1080, 1350) ∧
        t3_render m w bg c d j =
          .ok (w.insert (outPath j) (.png cv), outPath j)) ∧
    (∀ (m : Metrics) (w : World) (bg : String) (c : MarketingCopy)
        (d : PropertyData) (j : String) (cv timg : Img),
      w "templates/template2.png" = some (.png timg) →
      sizeI timg = some (1080, 1920) →
      t4_canvas m w bg c d = .ok cv →
        sizeI cv = some (1080, 1920) ∧
        t4_render m w bg c d j =
          .ok (w.insert (outPath j) (.png cv), outPath j)) := by
  refine ⟨?_, ?_, ?_, ?_⟩
  · intro m w bg c d j cv h
    refine ⟨?_, ?_⟩
    · unfold t1_canvas at h
      cases htick : openImage w "assets/tick.png" with
      | error e => rw [htick] at h; simp [Bind.bind, Except.bind] at h
      | ok tickimg =>
        rw [htick] at h
        cases hbg : openImage w bg with
        | error e => rw [hbg] at h; simp [Bind.bind, Except.bind] at h
        | ok bgimg =>
          rw [hbg] at h
          cases hicon : load_icon w (some "assets/call.png") 90 90 with
          | error e => rw [hicon] at h; simp [Bind.bind, Except.bind] at h
          | ok icon? =>
            rw [hicon] at h
            simp only [Bind.bind, Except.bind, pure, Except.pure] at h
            obtain rfl := Except.ok.inj h
            cases icon? with
            | none =>
              simp [sizeI, t1_add_bottom_gradient, t1_draw_text_with_shadow,
                sizeI_t1_amenities]
            | some icon =>
              simp [sizeI, t1_add_bottom_gradient, t1_draw_text_with_shadow,
                sizeI_t1_amenities]
    · unfold t1_render
      rw [h]
      rfl
  · intro m w bg c d j parts h
    refine ⟨?_, ?_⟩
    · unfold t2_canvas_parts at h
      cases hbg : openImage w bg with
      | error e => rw [hbg] at h; simp [Bind.bind, Except.bind] at h
      | ok bgimg =>
        rw [hbg] at h
        cases htick : openImage w "assets/tick2.png" with
        | error e => rw [htick] at h; simp [Bind.bind, Except.bind] at h
        | ok tickimg =>
          rw [htick] at h
          simp only [Bind.bind, Except.bind, pure, Except.pure] at h
          obtain rfl := Except.ok.inj h
          simp [sizeI, sizeI_t2_amenities]
    · unfold t2_render
      rw [h]
      rfl
  · intro m w bg c d j cv h
    refine ⟨?_, ?_⟩
    · unfold t3_canvas at h
      cases hbg : openImage w bg with
      | error e => rw [hbg] at h; simp [Bind.bind, Except.bind] at h
      | ok bgimg =>
        rw [hbg] at h
        cases hicon : load_icon w (some "assets/call.png") 110 110 with
        | error e => rw [hicon] at h; simp [Bind.bind, Except.bind] at h
        | ok icon? =>
          rw [hicon] at h
          cases hlogo : load_logo w d.logo_path 230 110 with
          | error e => rw [hlogo] at h; simp [Bind.bind, Except.bind] at h
          | ok logo? =>
            rw [hlogo] at h
            simp only [Bind.bind, Except.bind, pure, Except.pure] at h
            obtain rfl := Except.ok.inj h
            cases icon? <;> cases logo? <;>
              simp [sizeI, t3_draw_text_with_shadow, sizeI_t3_amenities]
    · unfold t3_render
      rw [h]
      rfl
  · intro m w bg c d j cv timg hT hsz h
    refine ⟨?_, ?_⟩
    · unfold t4_canvas at h
      rw [show openImage w "templates/template2.png" = .ok timg by
        unfold openImage; rw [hT]; rfl] at h
      cases hbg : openImage w bg with
      | error e => rw [hbg] at h; simp [Bind.bind, Except.bind] at h
      | ok bgimg =>
        rw [hbg] at h
        simp only [Bind.bind, Except.bind] at h
        rw [show sizeI (timg.convert "RGBA") = some (1080, 1920) from hsz] at h
        simp only [Bind.bind, Except.bind] at h
        cases hlogo : load_logo w d.logo_path 360 180 with
        | error e => rw [hlogo] at h; simp [Bind.bind, Except.bind] at h
        | ok logo? =>
          rw [hlogo] at h
          cases hicon : load_icon w (some "assets/call.png") 110 110 with
          | error e => rw [hicon] at h; simp [Bind.bind, Except.bind] at h
          | ok icon? =>
            rw [hicon] at h
            simp only [Bind.bind, Except.bind, pure, Except.pure] at h
            obtain rfl := Except.ok.inj h
            cases icon? <;> cases logo? <;>
              simp [sizeI, sizeI_t4_amenities]
    · unfold t4_render
      rw [h]
      rfl

/-- Junk default used only by the sample extractors below (never reached:
the sample renders succeed). -/
def imgJunk : Img := Img.new "" 0 0 none

/-- The template1 canvas at the sample inputs. -/
def t1CanvasSample : Img :=
  ((t1_canvas mSample wSample "bg.png" contentSample
    dataSample).toOption).getD imgJunk

/-- The template2 intermediates at the sample inputs. -/
def t2PartsSample : T2Parts :=
  ((t2_canvas_parts mSample wSample "bg.png" contentSample
    dataSample).toOption).getD ⟨imgJunk, imgJunk, imgJunk⟩

/-- The template3 canvas at the sample inputs. -/
def t3CanvasSample : Img :=
  ((t3_canvas mSample wSample "bg.png" contentSample
    dataSample).toOption).getD imgJunk

/-- The template4 canvas at the sample inputs. -/
def t4CanvasSample : Img :=
  ((t4_canvas mSample wSample "bg.png" contentSample
    dataSample).toOption).getD imgJunk

/-- Witness for `render_output_contract` at the sample inputs. -/
theorem render_output_contract_witness :
    (t1_canvas mSample wSample "bg.png" contentSample dataSample =
        .ok t1CanvasSample ∧
      sizeI t1CanvasSample = some (1080, 1350) ∧
      t1_render mSample wSample "bg.png" contentSample dataSample "job" =
        .ok (wSample.insert (outPath "job") (.png t1CanvasSample),
          outPath "job")) ∧
    (t2_canvas_parts mSample wSample "bg.png" contentSample dataSample =
        .ok t2PartsSample ∧
      sizeI t2PartsSample.canvas = some (1080, 1350) ∧
      t2_render mSample wSample "bg.png" contentSample dataSample "job" =
        .ok (wSample.insert (outPath "job") (.png t2PartsSample.canvas),
          outPath "job")) ∧
    (t3_canvas mSample wSample "bg.png" contentSample dataSample =
        .ok t3CanvasSample ∧
      sizeI t3CanvasSample = some (1080, 1350) ∧
      t3_render mSample wSample "bg.png" contentSample dataSample "job" =
        .ok (wSample.insert (outPath "job") (.png t3CanvasSample),
          outPath "job")) ∧
    (wSample "templates/template2.png" =
        some (.png (Img.new "RGBA" 1080 1920 none)) ∧
      sizeI (Img.new "RGBA" 1080 1920 none) = some (1080, 1920) ∧
      t4_canvas mSample wSample "bg.png" contentSample dataSample =
        .ok t4CanvasSample ∧
      sizeI t4CanvasSample = some (1080, 1920) ∧
      t4_render mSample wSample "bg.png" contentSample dataSample "job" =
        .ok (wSample.insert (outPath "job") (.png t4CanvasSample),
          outPath "job")) := by
  refine ⟨⟨rfl, ?_⟩, ⟨rfl, ?_⟩, ⟨rfl, ?_⟩, ⟨rfl, rfl, rfl, ?_⟩⟩
  · exact render_output_contract.1 mSample wSample "bg.png" contentSample
      dataSample "job" t1CanvasSample rfl
  · exact render_output_contract.2.1 mSample wSample "bg.png" contentSample
      dataSample "job" t2PartsSample rfl
  · exact render_output_contract.2.2.1 mSample wSample "bg.png" contentSample
      dataSample "job" t3CanvasSample rfl
  · exact render_output_contract.2.2.2 mSample wSample "bg.png" contentSample
      dataSample "job" t4CanvasSample (Img.new "RGBA" 1080 1920 none) rfl rfl
      rfl

/-! ### C8: determinism of successive renders

A render reads the background, fonts, and icons from the filesystem and
writes exactly one file, `outputs/poster_<job_id>.png`.  Re-running is
byte-identical as long as no read path coincides with that output path; but
the background (and logo) paths are caller-supplied, and aliasing them to
the output path makes the second render re-read the first render's output. -/

theorem openImage_insert (w : World) (k : String) (v : FC) (p : String)
    (h : p ≠ k) : openImage (w.insert k v) p = openImage w p := by
  unfold openImage
  rw [World.insert_ne w k p v h]

theorem load_font_insert (w : World) (k : String) (v : FC) (p : String)
    (sz : Nat) (h : p ≠ k) :
    load_font (w.insert k v) p sz = load_font w p sz := by
  unfold load_font truetype
  rw [World.insert_ne w k p v h]

theorem load_icon_insert (w : World) (k : String) (v : FC) (p : String)
    (szw szh : Nat) (h : p ≠ k) :
    load_icon (w.insert k v) (some p) szw szh =
      load_icon w (some p) szw szh := by
  simp only [load_icon, World.insert_ne w k p v h]

theorem load_logo_insert (w : World) (k : String) (v : FC)
    (path : Option String) (szw szh : Nat)
    (h : ∀ p, path = some p → p ≠ k) :
    load_logo (w.insert k v) path szw szh = load_logo w path szw szh := by
  cases path with
  | none => rfl
  | some p => simp only [load_logo, World.insert_ne w k p v (h p rfl)]

theorem World.insert_insert (w : World) (k : String) (v : FC) :
    World.insert (World.insert w k v) k v = World.insert w k v := by
  funext p
  by_cases hp : p = k <;> simp [World.insert, hp]

/-- Every output path starts with the letter of its fixed directory. -/
theorem outPath_head (j : String) : (outPath j).data.head? = some 'o' := by
  show ((("outputs/poster_" ++ j) ++ ".png").data).head? = some 'o'
  rw [String.data_append, String.data_append]
  rfl

/-- A path whose first character is not 'o' is never an output path. -/
theorem ne_outPath (s j : String) (h : s.data.head? ≠ some 'o') :
    s ≠ outPath j :=
  fun he => h (he ▸ outPath_head j)

/-- Template1's canvas only reads the filesystem at the background, tick,
font, and call-icon paths: writing any other file does not change it. -/
theorem t1_canvas_insert (m : Metrics) (w : World) (k : String) (v : FC)
    (bg : String) (c : MarketingCopy) (d : PropertyData) (hbg : bg ≠ k)
    (h1 : "assets/tick.png" ≠ k) (h2 : "fonts/Cinzel-ExtraBold.ttf" ≠ k)
    (h3 : "fonts/Montserrat-Regular.ttf" ≠ k)
    (h4 : "fonts/Montserrat-Bold.ttf" ≠ k)
    (h5 : "fonts/Roboto_Condensed-SemiBold.ttf" ≠ k)
    (h6 : "fonts/Oswald-Bold.ttf" ≠ k) (h7 : "assets/call.png" ≠ k) :
    t1_canvas m (w.insert k v) bg c d = t1_canvas m w bg c d := by
  have e1 := openImage_insert w k v "assets/tick.png" h1
  have e2 := openImage_insert w k v bg hbg
  have f1 := load_font_insert w k v "fonts/Cinzel-ExtraBold.ttf" 70 h2
  have f2 := load_font_insert w k v "fonts/Montserrat-Regular.ttf" 36 h3
  have f3 := load_font_insert w k v "fonts/Montserrat-Bold.ttf" 44 h4
  have f4 := load_font_insert w k v "fonts/Roboto_Condensed-SemiBold.ttf" 36 h5
  have f5 := load_font_insert w k v "fonts/Montserrat-Bold.ttf" 56 h4
  have f6 := load_font_insert w k v "fonts/Oswald-Bold.ttf" 42 h6
  have e3 := load_icon_insert w k v "assets/call.png" 90 90 h7
  simp only [t1_canvas, e1, e2, f1, f2, f3, f4, f5, f6, e3]

/-- Template2's canvas only reads the filesystem at the background, font,
and tick paths. -/
theorem t2_canvas_insert (m : Metrics) (w : World) (k : String) (v : FC)
    (bg : String) (c : MarketingCopy) (d : PropertyData) (hbg : bg ≠ k)
    (h1 : "fonts/Montserrat-SemiBold.ttf" ≠ k)
    (h2 : "fonts/Montserrat-Bold.ttf" ≠ k)
    (h3 : "assets/tick2.png" ≠ k) :
    t2_canvas_parts m (w.insert k v) bg c d =
      t2_canvas_parts m w bg c d := by
  have e1 := openImage_insert w k v bg hbg
  have e2 := openImage_insert w k v "assets/tick2.png" h3
  have f1 := load_font_insert w k v "fonts/Montserrat-SemiBold.ttf" 80 h1
  have f2 := load_font_insert w k v "fonts/Montserrat-Bold.ttf" 52 h2
  have f3 := load_font_insert w k v "fonts/Montserrat-Bold.ttf" 30 h2
  have f4 := load_font_insert w k v "fonts/Montserrat-Bold.ttf" 36 h2
  simp only [t2_canvas_parts, e1, e2, f1, f2, f3, f4]

/-- Template3's canvas only reads the filesystem at the background, font,
call-icon, and logo paths. -/
theorem t3_canvas_insert (m : Metrics) (w : World) (k : String) (v : FC)
    (bg : String) (c : MarketingCopy) (d : PropertyData) (hbg : bg ≠ k)
    (hlogo : ∀ q, d.logo_path = some q → q ≠ k)
    (h1 : "fonts/Cinzel-ExtraBold.ttf" ≠ k)
    (h2 : "fonts/Montserrat-Regular.ttf" ≠ k)
    (h3 : "fonts/Roboto_Condensed-SemiBold.ttf" ≠ k)
    (h4 : "fonts/Montserrat-Bold.ttf" ≠ k)
    (h5 : "fonts/Oswald-Bold.ttf" ≠ k) (h6 : "assets/call.png" ≠ k) :
    t3_canvas m (w.insert k v) bg c d = t3_canvas m w bg c d := by
  have e1 := openImage_insert w k v bg hbg
  have f1 := load_font_insert w k v "fonts/Cinzel-ExtraBold.ttf" 95 h1
  have f2 := load_font_insert w k v "fonts/Montserrat-Regular.ttf" 40 h2
  have f3 := load_font_insert w k v "fonts/Roboto_Condensed-SemiBold.ttf" 50 h3
  have f4 := load_font_insert w k v "fonts/Montserrat-Bold.ttf" 60 h4
  have f5 := load_font_insert w k v "fonts/Oswald-Bold.ttf" 50 h5
  have e2 := load_icon_insert w k v "assets/call.png" 110 110 h6
  have e3 := load_logo_insert w k v d.logo_path 230 110 hlogo
  simp only [t3_canvas, e1, f1, f2, f3, f4, f5, e2, e3]

/-- Template4's canvas only reads the filesystem at the template asset,
background, font, logo, and call-icon paths. -/
theorem t4_canvas_insert (m : Metrics) (w : World) (k : String) (v : FC)
    (bg : String) (c : MarketingCopy) (d : PropertyData) (hbg : bg ≠ k)
    (hlogo : ∀ q, d.logo_path = some q → q ≠ k)
    (h1 : "templates/template2.png" ≠ k)
    (h2 : "fonts/Cinzel-ExtraBold.ttf" ≠ k)
    (h3 : "fonts/DMSerifDisplay-Italic.ttf" ≠ k)
    (h4 : "fonts/Inter-Medium.ttf" ≠ k)
    (h5 : "fonts/Montserrat-SemiBold.ttf" ≠ k)
    (h6 : "fonts/Montserrat-Bold.ttf" ≠ k) (h7 : "assets/call.png" ≠ k) :
    t4_canvas m (w.insert k v) bg c d = t4_canvas m w bg c d := by
  have e1 := openImage_insert w k v "templates/template2.png" h1
  have e2 := openImage_insert w k v bg hbg
  have f1 := load_font_insert w k v "fonts/Cinzel-ExtraBold.ttf" 95 h2
  have f2 := load_font_insert w k v "fonts/DMSerifDisplay-Italic.ttf" 70 h3
  have f3 := load_font_insert w k v "fonts/Inter-Medium.ttf" 40 h4
  have f4 := load_font_insert w k v "fonts/Montserrat-SemiBold.ttf" 85 h5
  have f5 := load_font_insert w k v "fonts/Montserrat-Bold.ttf" 80 h6
  have e3 := load_logo_insert w k v d.logo_path 360 180 hlogo
  have e4 := load_icon_insert w k v "assets/call.png" 110 110 h7
  simp only [t4_canvas, e1, e2, f1, f2, f3, f4, f5, e3, e4]

/-- A filesystem where the caller-supplied background path *is* the render
output path `outputs/poster_job.png` (which holds a decodable image), plus
the tick icon template2 needs. -/
def selfWorld : World := fun p =>
  if p = "outputs/poster_job.png" then some (.png (Img.new "RGBA" 3 3 none))
  else if p = "assets/tick2.png" then some (.png (Img.new "RGBA" 2 2 none))
  else none

/-- **C8, counterexample.**  With the background path aliased to the output
path, two successive invocations of template2's render on the same fixed
input both succeed but store different bytes at the output path: the second
render re-reads the poster written by the first.  The claim's "for every
fixed input" is therefore false as stated. -/
theorem successive_renders_counterexample :
    ∃ w1 w2 : World,
      t2_render mSample selfWorld (outPath "job") contentSample dataSample
        "job" = .ok (w1, outPath "job") ∧
      t2_render mSample w1 (outPath "job") contentSample dataSample "job" =
        .ok (w2, outPath "job") ∧
      w2 (outPath "job") ≠ w1 (outPath "job") := by
  refine ⟨_, _, rfl, rfl, ?_⟩
  decide

/-- **C8, amended.**  For each of the four templates: provided the
caller-supplied background path (and, for templates 3 and 4, the logo path)
differs from the output path `outputs/poster_<job_id>.png`, a second
invocation of the render on the same fixed input succeeds with the
identical result — it rewrites the same world (byte-identical stored PNG)
and returns the same path.  Once a template is selected the render path
contains no randomness: the embedded renders are functions of the
environment alone, and they change the filesystem only at the output
path. -/
theorem successive_renders_deterministic :
    (∀ (m : Metrics) (w : World) (bg : String) (c : MarketingCopy)
        (d : PropertyData) (j : String) (w1 : World) (p1 : String),
      bg ≠ outPath j →
      t1_render m w bg c d j = .ok (w1, p1) →
      t1_render m w1 bg c d j = .ok (w1, p1)) ∧
    (∀ (m : Metrics) (w : World) (bg : String) (c : MarketingCopy)
        (d : PropertyData) (j : String) (w1 : World) (p1 : String),
      bg ≠ outPath j →
      t2_render m w bg c d j = .ok (w1, p1) →
      t2_render m w1 bg c d j = .ok (w1, p1)) ∧
    (∀ (m : Metrics) (w : World) (bg : String) (c : MarketingCopy)
        (d : PropertyData) (j : String) (w1 : World) (p1 : String),
      bg ≠ outPath j → (∀ q, d.logo_path = some q → q ≠ outPath j) →
      t3_render m w bg c d j = .ok (w1, p1) →
      t3_render m w1 bg c d j = .ok (w1, p1)) ∧
    (∀ (m : Metrics) (w : World) (bg : String) (c : MarketingCopy)
        (d : PropertyData) (j : String) (w1 : World) (p1 : String),
      bg ≠ outPath j → (∀ q, d.logo_path = some q → q ≠ outPath j) →
      t4_render m w bg c d j = .ok (w1, p1) →
      t4_render m w1 bg c d j = .ok (w1, p1)) := by
  refine ⟨?_, ?_, ?_, ?_⟩
  · intro m w bg c d j w1 p1 hbg h
    unfold t1_render at h ⊢
    cases hc : t1_canvas m w bg c d with
    | error e => rw [hc] at h; simp [Except.map] at h
    | ok cv =>
      rw [hc] at h
      have hpair := Except.ok.inj h
      rw [Prod.mk.injEq] at hpair
      obtain ⟨rfl, rfl⟩ := hpair
      rw [t1_canvas_insert m w (outPath j) (.png cv) bg c d hbg
          (ne_outPath _ j (by decide)) (ne_outPath _ j (by decide))
          (ne_outPath _ j (by decide)) (ne_outPath _ j (by decide))
          (ne_outPath _ j (by decide)) (ne_outPath _ j (by decide))
          (ne_outPath _ j (by decide)),
        hc]
      show Except.ok (((w.insert (outPath j) (.png cv)).insert (outPath j)
        (.png cv)), outPath j) = _
      rw [World.insert_insert]
  · intro m w bg c d j w1 p1 hbg h
    unfold t2_render at h ⊢
    cases hc : t2_canvas_parts m w bg c d with
    | error e => rw [hc] at h; simp [Except.map] at h
    | ok parts =>
      rw [hc] at h
      have hpair := Except.ok.inj h
      rw [Prod.mk.injEq] at hpair
      obtain ⟨rfl, rfl⟩ := hpair
      rw [t2_canvas_insert m w (outPath j) (.png parts.canvas) bg c d hbg
          (ne_outPath _ j (by decide)) (ne_outPath _ j (by decide))
          (ne_outPath _ j (by decide)),
        hc]
      show Except.ok (((w.insert (outPath j) (.png parts.canvas)).insert
        (outPath j) (.png parts.canvas)), outPath j) = _
      rw [World.insert_insert]
  · intro m w bg c d j w1 p1 hbg hlogo h
    unfold t3_render at h ⊢
    cases hc : t3_canvas m w bg c d with
    | error e => rw [hc] at h; simp [Except.map] at h
    | ok cv =>
      rw [hc] at h
      have hpair := Except.ok.inj h
      rw [Prod.mk.injEq] at hpair
      obtain ⟨rfl, rfl⟩ := hpair
      rw [t3_canvas_insert m w (outPath j) (.png cv) bg c d hbg hlogo
          (ne_outPath _ j (by decide)) (ne_outPath _ j (by decide))
          (ne_outPath _ j (by decide)) (ne_outPath _ j (by decide))
          (ne_outPath _ j (by decide)) (ne_outPath _ j (by decide)),
        hc]
      show Except.ok (((w.insert (outPath j) (.png cv)).insert (outPath j)
        (.png cv)), outPath j) = _
      rw [World.insert_insert]
  · intro m w bg c d j w1 p1 hbg hlogo h
    unfold t4_render at h ⊢
    cases hc : t4_canvas m w bg c d with
    | error e => rw [hc] at h; simp [Except.map] at h
    | ok cv =>
      rw [hc] at h
      have hpair := Except.ok.inj h
      rw [Prod.mk.injEq] at hpair
      obtain ⟨rfl, rfl⟩ := hpair
      rw [t4_canvas_insert m w (outPath j) (.png cv) bg c d hbg hlogo
          (ne_outPath _ j (by decide)) (ne_outPath _ j (by decide))
          (ne_outPath _ j (by decide)) (ne_outPath _ j (by decide))
          (ne_outPath _ j (by decide)) (ne_outPath _ j (by decide))
          (ne_outPath _ j (by decide)),
        hc]
      show Except.ok (((w.insert (outPath j) (.png cv)).insert (outPath j)
        (.png cv)), outPath j) = _
      rw [World.insert_insert]

/-- Witness for `successive_renders_deterministic` at the sample inputs. -/
theorem successive_renders_deterministic_witness :
    (∃ w1 p1, t1_render mSample wSample "bg.png" contentSample dataSample
        "job" = .ok (w1, p1) ∧
      t1_render mSample w1 "bg.png" contentSample dataSample "job" =
        .ok (w1, p1)) ∧
    (∃ w1 p1, t2_render mSample wSample "bg.png" contentSample dataSample
        "job" = .ok (w1, p1) ∧
      t2_render mSample w1 "bg.png" contentSample dataSample "job" =
        .ok (w1, p1)) ∧
    (∃ w1 p1, t3_render mSample wSample "bg.png" contentSample dataSample
        "job" = .ok (w1, p1) ∧
      t3_render mSample w1 "bg.png" contentSample dataSample "job" =
        .ok (w1, p1)) ∧
    (∃ w1 p1, t4_render mSample wSample "bg.png" contentSample dataSample
        "job" = .ok (w1, p1) ∧
      t4_render mSample w1 "bg.png" contentSample dataSample "job" =
        .ok (w1, p1)) := by
  refine ⟨?_, ?_, ?_, ?_⟩
  · obtain ⟨w1, p1, h⟩ : ∃ w1 p1, t1_render mSample wSample "bg.png"
        contentSample dataSample "job" = .ok (w1, p1) := ⟨_, _, rfl⟩
    exact ⟨w1, p1, h, successive_renders_deterministic.1 mSample wSample
      "bg.png" contentSample dataSample "job" w1 p1 (by decide) h⟩
  · obtain ⟨w1, p1, h⟩ : ∃ w1 p1, t2_render mSample wSample "bg.png"
        contentSample dataSample "job" = .ok (w1, p1) := ⟨_, _, rfl⟩
    exact ⟨w1, p1, h, successive_renders_deterministic.2.1 mSample wSample
      "bg.png" contentSample dataSample "job" w1 p1 (by decide) h⟩
  · obtain ⟨w1, p1, h⟩ : ∃ w1 p1, t3_render mSample wSample "bg.png"
        contentSample dataSample "job" = .ok (w1, p1) := ⟨_, _, rfl⟩
    exact ⟨w1, p1, h, successive_renders_deterministic.2.2.1 mSample wSample
      "bg.png" contentSample dataSample "job" w1 p1 (by decide)
      (fun q hq => Option.noConfusion hq) h⟩
  · obtain ⟨w1, p1, h⟩ : ∃ w1 p1, t4_render mSample wSample "bg.png"
        contentSample dataSample "job" = .ok (w1, p1) := ⟨_, _, rfl⟩
    exact ⟨w1, p1, h, successive_renders_deterministic.2.2.2 mSample wSample
      "bg.png" contentSample dataSample "job" w1 p1 (by decide)
      (fun q hq => Option.noConfusion hq) h⟩

end Graphics
